import Mathlib

/-!
Verification of the hxc_designer heat-sink engine (src/heat_sink/heat_sink.py,
src/heat_sink/hx_equations/hx_equations.py, src/heat_sink/hx_coefficients/hx_coefficients.py)
against its natural-language specification.

The Python code is shallowly embedded: pure formulas become functions over ℚ or ℝ,
and the stateful construction paths (class initializers, property setters) become
functions returning Except PyErr _, where PyErr mirrors the Python exception class
that the interpreter would raise.  Dynamic-typing failures of the CPython runtime
(wrong number of positional arguments in a call, a missing attribute, a builtin
applied at the wrong arity) are modelled explicitly, because several claims are
about exactly those failures.
-/

namespace HxcDesigner

/-- Python exception kinds raised by the embedded code paths. -/
inductive PyErr where
  | typeError
  | valueError
  | attributeError
  | notImplementedError
deriving DecidableEq

/-!
## The gap property setter (heat_sink.py lines 488-512)

StraightHeatSink.__init__ (line 381) computes
gap = (base_h - n_fins * fin_thk) / (n_fins - 1) and assigns it to the property
self.gap.  The setter body has three branches:
  - gap_dist <= 0 : an err_msg string is built, but there is NO raise statement in
    this branch, and self._gap is not assigned either; the setter returns silently;
  - 0 < gap_dist < self._MIN_GAP : raises ValueError(err_msg);
  - otherwise : stores self._gap = gap_dist.
-/

/-- Outcome of one execution of the gap setter body. -/
inductive GapSetResult where
  /-- the branch ended at self._gap = gap_dist -/
  | set (gap : ℚ)
  /-- the gap_dist <= 0 branch: err_msg is built but never raised, nothing stored -/
  | skipped
  /-- an exception was raised -/
  | raised (e : PyErr)
deriving DecidableEq

/-- self._MIN_GAP = 0.0001, heat_sink.py line 379. -/
def MIN_GAP : ℚ := 1 / 10000

/-- Embedding of the gap setter body, heat_sink.py lines 492-512. -/
def gap_setter (gap_dist : ℚ) : GapSetResult :=
  if gap_dist ≤ 0 then
    GapSetResult.skipped
  else if gap_dist < MIN_GAP then
    GapSetResult.raised PyErr.valueError
  else
    GapSetResult.set gap_dist

/-- Derived gap value computed in StraightHeatSink.__init__, heat_sink.py lines 380-381:
_total_fin_width = n_fins * fin_thk; gap = (base_h - _total_fin_width) / (n_fins - 1). -/
def straight_gap (base_h fin_thk : ℚ) (n_fins : ℤ) : ℚ :=
  (base_h - (n_fins : ℚ) * fin_thk) / ((n_fins : ℚ) - 1)

/-!
## Python dynamic-call machinery needed by the construction paths
-/

/-- A duck-typed heat-transfer-coefficient argument: an object that may or may not
carry numeric attributes h and k (hasattr is modelled by Option.isSome). -/
structure CoeffObj where
  h : Option ℚ
  k : Option ℚ
deriving DecidableEq

/-- An argument passed to the builtin all().  all() accepts exactly one positional
argument, which must be iterable; a Bool argument is not iterable. -/
inductive PyAllArg where
  | list (bs : List Bool)
  | bool (b : Bool)
deriving DecidableEq

/-- Embedding of a call to the Python builtin all() with the given positional
argument list.  A single list argument folds with and; a single Bool argument
raises TypeError (a Bool is not iterable); any other number of positional
arguments raises TypeError (all takes exactly one argument). -/
def pyAll : List PyAllArg → Except PyErr Bool
  | [PyAllArg.list bs] => Except.ok (bs.all id)
  | [PyAllArg.bool _] => Except.error PyErr.typeError
  | _ => Except.error PyErr.typeError

/-- Embedding of the hx_coeff property setter, heat_sink.py lines 439-453.
attr_check is computed by all([hasattr .. h, hasattr .. k]).  When attr_check
fails a TypeError is raised (line 449).  Otherwise attr_val_check compares h > 0
and k > 0 inside a try/except.  Line 450 then evaluates
all(attr_check, attr_val_check) - the builtin all applied to TWO positional
arguments - before deciding whether to store the object. -/
def hx_coeff_setter (c : CoeffObj) : Except PyErr CoeffObj := do
  let attr_check ← pyAll [PyAllArg.list [c.h.isSome, c.k.isSome]]
  if attr_check then
    let attr_val_check :=
      match c.h, c.k with
      | some hv, some kv => decide (0 < hv) && decide (0 < kv)
      | _, _ => false
    let r ← pyAll [PyAllArg.bool attr_check, PyAllArg.bool attr_val_check]
    if r then Except.ok c else Except.error PyErr.valueError
  else
    Except.error PyErr.typeError

/-- n_fins property setter, heat_sink.py lines 264-272: accepts an int n >= 2,
raises otherwise (the input is already an integer in callers modelled here). -/
def n_fins_setter (n : ℤ) : Except PyErr ℤ :=
  if 2 ≤ n then Except.ok n else Except.error PyErr.valueError

/-- fin_len property setter, heat_sink.py lines 284-289. -/
def fin_len_setter (l : ℚ) : Except PyErr ℚ :=
  if 0 < l then Except.ok l else Except.error PyErr.valueError

/-- Shared shape of the positive-scalar setters fin_wid / fin_thk / base_h,
heat_sink.py lines 459-486. -/
def pos_scalar_setter (x : ℚ) : Except PyErr ℚ :=
  if 0 < x then Except.ok x else Except.error PyErr.valueError

/-- State stored by a completed HeatSink.__init__ (heat_sink.py lines 85-111). -/
structure HSBase where
  hx_coeff : CoeffObj
  n_fins : ℤ
  fin_len : ℚ
deriving DecidableEq

/-- Embedding of HeatSink.__init__, heat_sink.py lines 109-111: the three property
assignments run their setters in order. -/
def heatSink_init (hx : CoeffObj) (n : ℤ) (l : ℚ) : Except PyErr HSBase := do
  let c ← hx_coeff_setter hx
  let n ← n_fins_setter n
  let l ← fin_len_setter l
  Except.ok ⟨c, n, l⟩

/-- State stored by a completed StraightHeatSink.__init__ (lines 334-381).
gap is None when the nonpositive-gap branch of the setter skipped the store. -/
structure StraightState where
  base : HSBase
  fin_wid : ℚ
  fin_thk : ℚ
  base_h : ℚ
  gap : Option ℚ
deriving DecidableEq

/-- Body of StraightHeatSink.__init__ once its six arguments are bound
(heat_sink.py lines 373-381). -/
def straight_init_body (hx : CoeffObj) (n : ℤ) (l w t bh : ℚ) :
    Except PyErr StraightState := do
  let b ← heatSink_init hx n l
  let w ← pos_scalar_setter w
  let t ← pos_scalar_setter t
  let bh ← pos_scalar_setter bh
  match gap_setter (straight_gap bh t n) with
  | GapSetResult.raised e => Except.error e
  | GapSetResult.set g => Except.ok ⟨b, w, t, bh, some g⟩
  | GapSetResult.skipped => Except.ok ⟨b, w, t, bh, none⟩

/-- A Python value passed positionally to StraightHeatSink.__init__. -/
inductive PyVal where
  | q (x : ℚ)
  | i (n : ℤ)
  | s (t : String)
  | coeff (c : CoeffObj)
deriving DecidableEq

/-- Embedding of a call to StraightHeatSink.__init__ with an explicit positional
argument list.  The def at heat_sink.py line 334 has exactly six parameters after
self (hx_coeff, n_fins, fin_len, fin_wid, fin_thk, base_h); CPython raises
TypeError at argument-binding time when the call supplies any other number of
positional arguments, which the catch-all case models. -/
def straightHeatSink_init (args : List PyVal) : Except PyErr StraightState :=
  match args with
  | [PyVal.coeff hx, PyVal.i n, PyVal.q l, PyVal.q w, PyVal.q t, PyVal.q bh] =>
      straight_init_body hx n l w t bh
  | _ => Except.error PyErr.typeError

/-!
## Class attribute tables

The names below transcribe every def (methods, properties, setters, abstract
methods) syntactically present in each class body of heat_sink.py, so attribute
lookup on an instance can be modelled.  _calc_base_area_tot is called at lines
661, 797 and 915 but appears in none of the class bodies.
-/

/-- Attribute names defined in class HeatSink (lines 84-328). -/
def heatSink_method_names : List String :=
  ["__init__", "fin_type", "hx_coeff", "_calc_derived_params", "_calc_fin_efficiency",
   "_calc_fin_effectiveness", "_calc_overall_fin_effectiveness", "_calc_fin_area_single",
   "_calc_fin_area_total", "_calc_base_area_nonfin", "n_fins", "fin_len", "hx"]

/-- Attribute names resolvable on a StraightHeatSink (lines 333-590 plus inherited). -/
def straightHeatSink_method_names : List String :=
  heatSink_method_names ++
    ["fin_wid", "fin_thk", "base_h", "gap", "_calc_fin_param_m"]

/-- Attribute names resolvable on a StrRectHeatSink (lines 601-719 plus inherited). -/
def strRectHeatSink_method_names : List String :=
  straightHeatSink_method_names ++ ["_calc_fin_characteristic_length"]

/-- Attribute names resolvable on a StrTriHeatSink (lines 725-840 plus inherited). -/
def strTriHeatSink_method_names : List String :=
  straightHeatSink_method_names ++ ["profile_formula"]

/-- Attribute names resolvable on a StrParaHeatSink (lines 842-970 plus inherited). -/
def strParaHeatSink_method_names : List String :=
  straightHeatSink_method_names ++ ["profile_formula", "_calc_param_c"]

/-- Attribute lookup: getattr raises AttributeError when the name is not defined
on the class or any ancestor. -/
def getattr_method (methods : List String) (name : String) : Except PyErr String :=
  if name ∈ methods then Except.ok name else Except.error PyErr.attributeError

/-- Runs a sequence of attribute lookups in order, stopping at the first failure.
Used to model the attribute accesses performed by _calc_derived_params; the
numeric values computed between the lookups are irrelevant to the claims about
raising behaviour and are not tracked. -/
def run_method_lookups (methods : List String) : List String → Except PyErr Unit
  | [] => Except.ok ()
  | m :: rest => do
      let _ ← getattr_method methods m
      run_method_lookups methods rest

/-- Attribute accesses made by StrRectHeatSink._calc_derived_params
(heat_sink.py lines 653-664), in source order. -/
def strRect_derived_param_lookups : List String :=
  ["_calc_fin_characteristic_length", "_calc_fin_param_m", "_calc_fin_efficiency",
   "_calc_fin_area_single", "_calc_fin_area_total", "_calc_base_area_tot",
   "_calc_base_area_nonfin", "_calc_fin_effectiveness", "_calc_overall_fin_effectiveness"]

/-- Attribute accesses made by StrTriHeatSink._calc_derived_params
(lines 790-800), in source order. -/
def strTri_derived_param_lookups : List String :=
  ["_calc_fin_param_m", "_calc_fin_efficiency", "_calc_fin_area_single",
   "_calc_fin_area_total", "_calc_base_area_tot", "_calc_base_area_nonfin",
   "_calc_fin_effectiveness", "_calc_overall_fin_effectiveness"]

/-- Attribute accesses made by StrParaHeatSink._calc_derived_params
(lines 907-918), in source order. -/
def strPara_derived_param_lookups : List String :=
  ["_calc_fin_param_m", "_calc_param_c", "_calc_fin_efficiency",
   "_calc_fin_area_single", "_calc_fin_area_total", "_calc_base_area_tot",
   "_calc_base_area_nonfin", "_calc_fin_effectiveness", "_calc_overall_fin_effectiveness"]

/-- Embedding of StrRectHeatSink.__init__ (heat_sink.py lines 602-644).  Line 642
forwards super().__init__(hx_coeff, fin_type, n_fins, fin_len, fin_wid, fin_thk,
base_h): seven positional arguments for the six parameters of
StraightHeatSink.__init__.  Only then would _calc_derived_params run. -/
def strRectHeatSink_init (hx : CoeffObj) (fin_type : String) (n : ℤ)
    (l w t bh : ℚ) : Except PyErr StraightState := do
  let st ← straightHeatSink_init
      [PyVal.coeff hx, PyVal.s fin_type, PyVal.i n, PyVal.q l, PyVal.q w,
       PyVal.q t, PyVal.q bh]
  let _ ← run_method_lookups strRectHeatSink_method_names strRect_derived_param_lookups
  Except.ok st

/-- Embedding of StrTriHeatSink.__init__ (lines 726-769): the super() call binds
its six arguments correctly, then _calc_derived_params runs. -/
def strTriHeatSink_init (hx : CoeffObj) (n : ℤ) (l w t bh : ℚ) :
    Except PyErr StraightState := do
  let st ← straightHeatSink_init
      [PyVal.coeff hx, PyVal.i n, PyVal.q l, PyVal.q w, PyVal.q t, PyVal.q bh]
  let _ ← run_method_lookups strTriHeatSink_method_names strTri_derived_param_lookups
  Except.ok st

/-- Embedding of StrParaHeatSink.__init__ (lines 843-886). -/
def strParaHeatSink_init (hx : CoeffObj) (n : ℤ) (l w t bh : ℚ) :
    Except PyErr StraightState := do
  let st ← straightHeatSink_init
      [PyVal.coeff hx, PyVal.i n, PyVal.q l, PyVal.q w, PyVal.q t, PyVal.q bh]
  let _ ← run_method_lookups strParaHeatSink_method_names strPara_derived_param_lookups
  Except.ok st

/-!
## hx_equations.py - HeatTransferMixin (lines 33-126)
-/

/-- HeatTransferMixin._calc_q_fin_single, hx_equations.py lines 34-60:
delta_t = temp_base - temp_env; q = fin_efficiency * hx_coeff.h * fin_area_single * delta_t. -/
def HeatTransferMixin_calc_q_fin_single
    (temp_base temp_env hx_coeff_h fin_efficiency fin_area_single : ℚ) : ℚ :=
  fin_efficiency * hx_coeff_h * fin_area_single * (temp_base - temp_env)

/-- HeatTransferMixin._calc_q_fin_total, hx_equations.py lines 62-88. -/
def HeatTransferMixin_calc_q_fin_total
    (temp_base temp_env hx_coeff_h fin_efficiency fin_area_total : ℚ) : ℚ :=
  fin_efficiency * hx_coeff_h * fin_area_total * (temp_base - temp_env)

/-- HeatTransferMixin._calc_q_heat_sink, hx_equations.py lines 90-126:
area_effective = base_area_nonfin + fin_efficiency * fin_area_total;
q = hx_coeff.h * area_effective * delta_t. -/
def HeatTransferMixin_calc_q_heat_sink
    (temp_base temp_env hx_coeff_h fin_efficiency fin_area_total base_area_nonfin : ℚ) : ℚ :=
  hx_coeff_h * (base_area_nonfin + fin_efficiency * fin_area_total) * (temp_base - temp_env)

/-- Derived state read by HeatSink.hx when building its calls. -/
structure HSQueryState where
  hx_coeff_h : ℚ
  fin_efficiency : ℚ
  fin_area_single : ℚ
  fin_area_total : ℚ
  base_area_nonfin : ℚ
deriving DecidableEq

/-- A positional argument in a call made by HeatSink.hx. -/
inductive HxArg where
  /-- the instance itself, passed explicitly in addition to the bound receiver -/
  | selfRef
  | q (x : ℚ)
  /-- the stored hx_coeff object -/
  | coeffRef
deriving DecidableEq

/-- Embedding of a call to the bound method _calc_q_fin_single.  The def in
hx_equations.py line 34 has five parameters after self, so a bound call binds
exactly five positional arguments; any other count raises TypeError. -/
def mixin_q_fin_single_call (st : HSQueryState) (args : List HxArg) : Except PyErr ℚ :=
  match args with
  | [HxArg.q temp_base, HxArg.q temp_env, HxArg.coeffRef, HxArg.q eff, HxArg.q area] =>
      Except.ok (HeatTransferMixin_calc_q_fin_single temp_base temp_env st.hx_coeff_h eff area)
  | _ => Except.error PyErr.typeError

/-- Embedding of a call to the bound method _calc_q_fin_total (five parameters
after self, hx_equations.py line 62). -/
def mixin_q_fin_total_call (st : HSQueryState) (args : List HxArg) : Except PyErr ℚ :=
  match args with
  | [HxArg.q temp_base, HxArg.q temp_env, HxArg.coeffRef, HxArg.q eff, HxArg.q area] =>
      Except.ok (HeatTransferMixin_calc_q_fin_total temp_base temp_env st.hx_coeff_h eff area)
  | _ => Except.error PyErr.typeError

/-- Embedding of a call to the bound method _calc_q_heat_sink (six parameters
after self, hx_equations.py line 90). -/
def mixin_q_heat_sink_call (st : HSQueryState) (args : List HxArg) : Except PyErr ℚ :=
  match args with
  | [HxArg.q temp_base, HxArg.q temp_env, HxArg.coeffRef, HxArg.q eff,
     HxArg.q atot, HxArg.q anonfin] =>
      Except.ok (HeatTransferMixin_calc_q_heat_sink temp_base temp_env st.hx_coeff_h
        eff atot anonfin)
  | _ => Except.error PyErr.typeError

/-- Embedding of HeatSink.hx, heat_sink.py lines 294-328 (list return type).
Each call at lines 320-322 passes self explicitly as the first positional
argument of an already-bound method, e.g. line 320:
self._calc_q_fin_single(self, temp_base, temp_env, self.hx_coeff,
self.fin_efficiency, self.fin_area_single) - six arguments for five parameters. -/
def heatSink_hx (st : HSQueryState) (temp_base temp_env : ℚ) :
    Except PyErr (List ℚ) := do
  let q_fin_single ← mixin_q_fin_single_call st
      [HxArg.selfRef, HxArg.q temp_base, HxArg.q temp_env, HxArg.coeffRef,
       HxArg.q st.fin_efficiency, HxArg.q st.fin_area_single]
  let q_fin_total ← mixin_q_fin_total_call st
      [HxArg.selfRef, HxArg.q temp_base, HxArg.q temp_env, HxArg.coeffRef,
       HxArg.q st.fin_efficiency, HxArg.q st.fin_area_total]
  let q_heat_sink ← mixin_q_heat_sink_call st
      [HxArg.selfRef, HxArg.q temp_base, HxArg.q temp_env, HxArg.coeffRef,
       HxArg.q st.fin_efficiency, HxArg.q st.fin_area_total, HxArg.q st.base_area_nonfin]
  Except.ok [q_fin_single, q_fin_total, q_heat_sink]

/-!
## Base-area computations (heat_sink.py line 548, spec section 4.4)
-/

/-- StraightHeatSink._calc_base_area_nonfin, heat_sink.py lines 540-548:
returns self.base_area_tot - self.n_fins * self.fin_thk * self.fin_wid. -/
def StraightHeatSink_calc_base_area_nonfin
    (base_area_tot : ℚ) (n_fins : ℤ) (fin_thk fin_wid : ℚ) : ℚ :=
  base_area_tot - (n_fins : ℚ) * fin_thk * fin_wid

/-- Modelled from the spec: _calc_base_area_tot is called at heat_sink.py lines
661, 797 and 915 but is defined nowhere in the repository.  Spec section 4.4
gives base_area_tot = base_h × fin_wid. -/
def calc_base_area_tot_spec (base_h fin_wid : ℚ) : ℚ :=
  base_h * fin_wid

/-!
## hx_coefficients.py - HxCoefficient.__init__ (lines 186-213)

Inputs k, h, temp arrive as arbitrary Python values; matl is used only through
its truthiness and as the lookup key.  The material-property collaborator
(matl_prop.k_val, interpolating and extrapolating tabular data) is passed in as
an explicit function argument k_lookup, since the spec treats it as an external
collaborator whose table contents are out of scope.
-/

/-- A Python value that may or may not be numeric.  float() succeeds exactly on
the numeric ones; a non-numeric value carries its truthiness. -/
inductive NumVal where
  | num (q : ℚ)
  | obj (truthy : Bool)
deriving DecidableEq

/-- Python truthiness: a number is falsy iff it is zero. -/
def NumVal.isTruthy : NumVal → Bool
  | NumVal.num q => decide (q ≠ 0)
  | NumVal.obj b => b

/-- float(x): identity on numbers, raises on non-numeric values. -/
def pyFloat : NumVal → Except PyErr ℚ
  | NumVal.num q => Except.ok q
  | NumVal.obj _ => Except.error PyErr.typeError

/-- The comparison x <= 0: decided on numbers, raises TypeError on non-numeric
values (Python 3 does not order objects against int). -/
def pyLeZero : NumVal → Except PyErr Bool
  | NumVal.num q => Except.ok (decide (q ≤ 0))
  | NumVal.obj _ => Except.error PyErr.typeError

/-- Truthiness of the matl argument: a present, non-empty string. -/
def matlTruthy : Option String → Bool
  | some m => decide (m ≠ "")
  | none => false

/-- State stored by a completed HxCoefficient.__init__. -/
structure HxCoefficient where
  k : ℚ
  h : ℚ
  matl : Option String
  temp : NumVal
deriving DecidableEq

/-- One statement of the try block at hx_coefficients.py lines 188-191:
if x: x = float(x).  A falsy input is left unconverted. -/
def convert_numarg (x : NumVal) : Except PyErr NumVal :=
  if x.isTruthy then NumVal.num <$> pyFloat x else pure x

/-- Embedding of the try block at hx_coefficients.py lines 188-193: each truthy
input is converted with float(); any conversion failure is caught and re-raised
as TypeError (the outcome does not depend on which conversion fails first). -/
def hx_convert_inputs (k h temp : NumVal) : Except PyErr (NumVal × NumVal × NumVal) :=
  match convert_numarg k, convert_numarg h, convert_numarg temp with
  | Except.ok k, Except.ok h, Except.ok temp => Except.ok (k, h, temp)
  | _, _, _ => Except.error PyErr.typeError

/-- Embedding of HxCoefficient.__init__, hx_coefficients.py lines 186-213.
After input conversion: if k <= 0, a truthy (matl, temp) pair routes k through
the material lookup (line 198) - the looked-up value is stored WITHOUT any
positivity check - and otherwise a ValueError is raised (lines 199-202 both
raise ValueError; the bad-k else branch is unreachable); a k > 0 is stored
directly.  Then h <= 0 raises ValueError (line 208), else h is stored. -/
def hxCoefficient_init (k0 h0 temp0 : NumVal) (matl : Option String)
    (k_lookup : String → ℚ → ℚ) : Except PyErr HxCoefficient :=
  match hx_convert_inputs k0 h0 temp0 with
  | Except.error e => Except.error e
  | Except.ok (k, h, temp) =>
    match pyLeZero k with
    | Except.error e => Except.error e
    | Except.ok k_nonpos =>
      match (if k_nonpos then
               if matlTruthy matl && temp.isTruthy then
                 match matl, temp with
                 | some m, NumVal.num tq => Except.ok (k_lookup m tq)
                 | _, _ => Except.error PyErr.typeError
               else Except.error PyErr.valueError
             else
               match k with
               | NumVal.num kq => Except.ok kq
               | NumVal.obj _ => Except.error PyErr.typeError) with
      | Except.error e => Except.error e
      | Except.ok k_val =>
        match pyLeZero h with
        | Except.error e => Except.error e
        | Except.ok h_nonpos =>
          if h_nonpos then Except.error PyErr.valueError
          else match h with
            | NumVal.num hq => Except.ok ⟨k_val, hq, matl, temp⟩
            | NumVal.obj _ => Except.error PyErr.typeError

/-!
## Real-valued fin formulas (heat_sink.py lines 517-970)
-/

/-- StraightHeatSink._calc_fin_param_m, heat_sink.py lines 517-526:
m = sqrt((2 * h) / (k * fin_thk)). -/
noncomputable def StraightHeatSink_calc_fin_param_m (hx_h hx_k fin_thk : ℝ) : ℝ :=
  Real.sqrt ((2 * hx_h) / (hx_k * fin_thk))

/-- StrRectHeatSink._calc_fin_characteristic_length, lines 666-680:
returns self.fin_len + self.fin_thk / 2. -/
noncomputable def StrRectHeatSink_calc_fin_characteristic_length (fin_len fin_thk : ℝ) : ℝ :=
  fin_len + fin_thk / 2

/-- StrRectHeatSink._calc_fin_efficiency, lines 682-706:
tanh(m * L_c) / (m * L_c). -/
noncomputable def StrRectHeatSink_calc_fin_efficiency (fin_param_m fin_len_char : ℝ) : ℝ :=
  Real.tanh (fin_param_m * fin_len_char) / (fin_param_m * fin_len_char)

/-- StrParaHeatSink._calc_fin_efficiency as WRITTEN at heat_sink.py line 955:
2 / (1 + sqrt(2 * m * L + 1)).  The comment directly above it (line 954) reads
nu_fin = 2 / (1 + sqrt((2*m*L)^2 + 1)): the code does not square the 2*m*L term. -/
noncomputable def StrParaHeatSink_calc_fin_efficiency (fin_param_m fin_len : ℝ) : ℝ :=
  2 / (1 + Real.sqrt (2 * fin_param_m * fin_len + 1))

/-- The parabolic efficiency formula as documented by the spec table (section 4.3)
and by the source comment at line 954: 2 / (1 + sqrt((2*m*L)^2 + 1)). -/
noncomputable def strPara_fin_efficiency_spec (fin_param_m fin_len : ℝ) : ℝ :=
  2 / (1 + Real.sqrt ((2 * fin_param_m * fin_len) ^ 2 + 1))

/-!
## suggest_fin_length (heat_sink.py lines 975-1064)
-/

/-- The fixed m*L coefficient sweep, heat_sink.py line 1038. -/
noncomputable def suggest_coeffs : List ℝ :=
  [0.1, 0.2, 0.5, 1.0, 1.5, 2.0, 2.5, 3.0, 4.0, 5.0]

/-- One loop iteration of suggest_fin_length, lines 1040-1042:
fin_len = param_m / coeff; hx_ratio = tanh(param_m * fin_len);
the triple [fin_len, hx_ratio, coeff] is appended. -/
noncomputable def suggest_entry (param_m coeff : ℝ) : ℝ × ℝ × ℝ :=
  (param_m / coeff, Real.tanh (param_m * (param_m / coeff)), coeff)

/-- The length_suggestions list built by the loop at lines 1037-1042, embedded as
the fold that appends one entry per coefficient in order. -/
noncomputable def length_suggestions (param_m : ℝ) : List (ℝ × ℝ × ℝ) :=
  suggest_coeffs.foldl (fun acc coeff => acc ++ [suggest_entry param_m coeff]) []

/-- param_m as computed by suggest_fin_length at line 1033 (same formula as
StraightHeatSink._calc_fin_param_m). -/
noncomputable def suggest_param_m (hx_h hx_k fin_thk : ℝ) : ℝ :=
  Real.sqrt ((2 * hx_h) / (hx_k * fin_thk))

/-- What a run of suggest_fin_length hands back to its caller. -/
inductive SuggestReturnKind where
  /-- the pandas DataFrame built at lines 1046-1052 -/
  | dataframe
  /-- the raw length_suggestions list -/
  | listval
deriving DecidableEq

/-- ASCII lower-casing of one character, as str.lower acts on the letters used
by the return_type vocabulary. -/
def charLower (c : Char) : Char :=
  if c.isUpper then Char.ofNat (c.toNat + 32) else c

/-- Embedding of return_type.lower() (heat_sink.py lines 1044, 1055, 1057, 1059). -/
def pyLower (s : String) : String :=
  String.mk (s.data.map charLower)

/-- return_type values that select the DataFrame return (line 1044/1055). -/
def df_return_names : List String := ["df", "pd", "dataframe", "pandas"]

/-- return_type values that select the numpy-array branch (line 1057). -/
def arr_return_names : List String := ["arr", "np", "array", "numpy"]

/-- return_type values that select the list return (line 1059). -/
def list_return_names : List String := ["l", "list"]

/-- Embedding of the return path of suggest_fin_length, heat_sink.py lines
1044-1064.  Except.ok none models the function falling off the end and
returning None.  In the first branch the DataFrame is built (and printed when
verbose); only the DataFrame return types return a value from that branch.  In
the arr branch (line 1058) the numpy array is assigned to a local but there is
no return statement. -/
def suggest_fin_length_return (verbose : Bool) (return_type : String) :
    Except PyErr (Option SuggestReturnKind) :=
  let rt := pyLower return_type
  if verbose || rt ∈ df_return_names then
    if rt ∈ df_return_names then Except.ok (some SuggestReturnKind.dataframe)
    else Except.ok none
  else if rt ∈ arr_return_names then
    Except.ok none
  else if rt ∈ list_return_names then
    Except.ok (some SuggestReturnKind.listval)
  else if return_type = "" then
    Except.ok none
  else
    Except.error PyErr.valueError

/-!
## Helper lemmas
-/

/-- The hx_coeff setter raises TypeError on every input object: when h or k is
missing the explicit raise at line 449 fires, and otherwise line 450 calls the
builtin all with two positional arguments. -/
lemma hx_coeff_setter_typeError (c : CoeffObj) :
    hx_coeff_setter c = Except.error PyErr.typeError := by
  cases c with
  | mk h k => cases h <;> cases k <;> rfl

lemma heatSink_init_typeError (hx : CoeffObj) (n : ℤ) (l : ℚ) :
    heatSink_init hx n l = Except.error PyErr.typeError := by
  unfold heatSink_init
  rw [hx_coeff_setter_typeError]
  rfl

lemma straight_init_body_typeError (hx : CoeffObj) (n : ℤ) (l w t bh : ℚ) :
    straight_init_body hx n l w t bh = Except.error PyErr.typeError := by
  unfold straight_init_body
  rw [heatSink_init_typeError]
  rfl

lemma straightHeatSink_init_six_typeError (hx : CoeffObj) (n : ℤ) (l w t bh : ℚ) :
    straightHeatSink_init
      [PyVal.coeff hx, PyVal.i n, PyVal.q l, PyVal.q w, PyVal.q t, PyVal.q bh]
      = Except.error PyErr.typeError := by
  show straight_init_body hx n l w t bh = _
  exact straight_init_body_typeError hx n l w t bh

/-!
## Claim theorems
-/

/-- C1: the spec says a computed gap that is zero or negative must fail
construction with InvalidGeometry; in particular Scenario A
(n_fins=6, fin_thk=0.005, base_h=0.02) has gap = -0.002 and must fail.  In the
code the gap_dist <= 0 branch of the gap setter builds its error message but
contains no raise statement and stores nothing, so the nonpositive gap of
Scenario A is accepted silently; only the 0 < gap < MIN_GAP branch raises. -/
theorem gap_setter_scenarioA_silent :
    straight_gap (1/50) (1/200) 6 = -1/500 ∧
    gap_setter (straight_gap (1/50) (1/200) 6) = GapSetResult.skipped ∧
    gap_setter (1/20000) = GapSetResult.raised PyErr.valueError := by
  have hg : straight_gap (1/50) (1/200) 6 = -1/500 := by
    norm_num [straight_gap]
  refine ⟨hg, ?_, ?_⟩
  · rw [hg]
    unfold gap_setter
    rw [if_pos (by norm_num)]
  · unfold gap_setter
    rw [if_neg (by norm_num), if_pos (by norm_num [MIN_GAP])]

/-- C2: every construction of StrRectHeatSink, StrTriHeatSink or StrParaHeatSink
raises an exception before a usable instance exists: StrRectHeatSink passes the
extra fin_type argument to StraightHeatSink.__init__ (seven positional
arguments for six parameters), the hx_coeff setter calls all() with two
positional arguments, and the method _calc_base_area_tot invoked by every
_calc_derived_params is defined nowhere in the class hierarchy. -/
theorem concrete_heat_sink_init_always_raises (hx : CoeffObj) (fin_type : String)
    (n : ℤ) (l w t bh : ℚ) :
    strRectHeatSink_init hx fin_type n l w t bh = Except.error PyErr.typeError ∧
    strTriHeatSink_init hx n l w t bh = Except.error PyErr.typeError ∧
    strParaHeatSink_init hx n l w t bh = Except.error PyErr.typeError ∧
    "_calc_base_area_tot" ∉ strRectHeatSink_method_names ∧
    "_calc_base_area_tot" ∉ strTriHeatSink_method_names ∧
    "_calc_base_area_tot" ∉ strParaHeatSink_method_names := by
  refine ⟨rfl, ?_, ?_, by decide, by decide, by decide⟩
  · unfold strTriHeatSink_init
    rw [straightHeatSink_init_six_typeError]
    rfl
  · unfold strParaHeatSink_init
    rw [straightHeatSink_init_six_typeError]
    rfl

/-- C5: the heat-rate formulas of HeatTransferMixin are exactly
q_fin_single = efficiency * h * fin_area_single * delta_t,
q_fin_total = efficiency * h * fin_area_total * delta_t and
q_heat_sink = h * (base_area_nonfin + efficiency * fin_area_total) * delta_t,
for any delta_t; but the heat-rate query HeatSink.hx never returns them: each of
its three calls passes self explicitly to an already-bound mixin method (six or
seven positional arguments for five or six parameters), so the query raises
TypeError on every input instead of returning and never reaches a state change. -/
theorem heatSink_hx_raises_typeError :
    (∀ (st : HSQueryState) (temp_base temp_env : ℚ),
      heatSink_hx st temp_base temp_env = Except.error PyErr.typeError) ∧
    (∀ temp_base temp_env h eff area : ℚ,
      HeatTransferMixin_calc_q_fin_single temp_base temp_env h eff area
        = eff * h * area * (temp_base - temp_env)) ∧
    (∀ temp_base temp_env h eff area : ℚ,
      HeatTransferMixin_calc_q_fin_total temp_base temp_env h eff area
        = eff * h * area * (temp_base - temp_env)) ∧
    (∀ temp_base temp_env h eff atot anonfin : ℚ,
      HeatTransferMixin_calc_q_heat_sink temp_base temp_env h eff atot anonfin
        = h * (anonfin + eff * atot) * (temp_base - temp_env)) :=
  ⟨fun _ _ _ => rfl, fun _ _ _ _ _ => rfl, fun _ _ _ _ _ => rfl,
   fun _ _ _ _ _ _ => rfl⟩

/-- C6: the area partition identity
base_area_nonfin + n_fins * fin_thk * fin_wid = base_area_tot holds exactly for
all geometries, with base_area_tot = base_h * fin_wid taken from the spec
(the method _calc_base_area_tot that should compute it is absent from the
code, see C2). -/
theorem base_area_partition_exact (base_h fin_wid fin_thk : ℚ) (n_fins : ℤ) :
    StraightHeatSink_calc_base_area_nonfin (calc_base_area_tot_spec base_h fin_wid)
        n_fins fin_thk fin_wid + (n_fins : ℚ) * fin_thk * fin_wid
      = calc_base_area_tot_spec base_h fin_wid ∧
    calc_base_area_tot_spec base_h fin_wid = base_h * fin_wid := by
  constructor
  · unfold StraightHeatSink_calc_base_area_nonfin
    ring
  · rfl

/-- C9: for every coefficient pair and fin thickness, the fin-length sweep is a
fully materialized list with exactly one entry (fin_length, length_ratio, mL)
per target coefficient, the targets being 0.1, 0.2, 0.5, 1.0, 1.5, 2.0, 2.5,
3.0, 4.0, 5.0 in strictly ascending order. -/
theorem length_suggestions_per_coeff_ordered (hx_h hx_k fin_thk : ℝ) :
    length_suggestions (suggest_param_m hx_h hx_k fin_thk)
        = suggest_coeffs.map (suggest_entry (suggest_param_m hx_h hx_k fin_thk)) ∧
    (length_suggestions (suggest_param_m hx_h hx_k fin_thk)).map
        (fun e => e.2.2) = suggest_coeffs ∧
    (length_suggestions (suggest_param_m hx_h hx_k fin_thk)).length = 10 ∧
    List.Chain' (· < ·) suggest_coeffs := by
  refine ⟨rfl, rfl, rfl, ?_⟩
  norm_num [suggest_coeffs, List.chain'_cons]

/-- C10: suggest_fin_length returns None for return_type np or arr regardless of
verbose (the numpy array is built at line 1058 but never returned), and with
verbose=True it also returns None for return_type l or list, because the
verbose branch consumes the control flow and only the DataFrame return types
return a value from inside it. -/
theorem suggest_fin_length_return_none_paths (verbose : Bool) :
    suggest_fin_length_return verbose "np" = Except.ok none ∧
    suggest_fin_length_return verbose "arr" = Except.ok none ∧
    suggest_fin_length_return true "l" = Except.ok none ∧
    suggest_fin_length_return true "list" = Except.ok none := by
  cases verbose <;> exact ⟨rfl, rfl, rfl, rfl⟩

/-!
## Evaluation lemmas for HxCoefficient.__init__
-/

lemma convert_numarg_num (q : ℚ) :
    convert_numarg (NumVal.num q) = Except.ok (NumVal.num q) := by
  by_cases hq : (NumVal.num q).isTruthy <;>
    simp [convert_numarg, hq, pyFloat, pure, Except.pure]

lemma hx_convert_inputs_num (kq hq tq : ℚ) :
    hx_convert_inputs (NumVal.num kq) (NumVal.num hq) (NumVal.num tq)
      = Except.ok (NumVal.num kq, NumVal.num hq, NumVal.num tq) := by
  unfold hx_convert_inputs
  rw [convert_numarg_num, convert_numarg_num, convert_numarg_num]

lemma convert_numarg_ok (x : NumVal) (hx : x ≠ NumVal.obj true) :
    convert_numarg x = Except.ok x := by
  cases x with
  | num q => exact convert_numarg_num q
  | obj b =>
    cases b with
    | false => rfl
    | true => exact absurd rfl hx

lemma hx_convert_inputs_ok (k0 h0 temp0 : NumVal) (hk : k0 ≠ NumVal.obj true)
    (hh : h0 ≠ NumVal.obj true) (ht : temp0 ≠ NumVal.obj true) :
    hx_convert_inputs k0 h0 temp0 = Except.ok (k0, h0, temp0) := by
  unfold hx_convert_inputs
  rw [convert_numarg_ok k0 hk, convert_numarg_ok h0 hh, convert_numarg_ok temp0 ht]

lemma hx_convert_inputs_objtrue (k0 h0 temp0 : NumVal)
    (h : k0 = NumVal.obj true ∨ h0 = NumVal.obj true ∨ temp0 = NumVal.obj true) :
    hx_convert_inputs k0 h0 temp0 = Except.error PyErr.typeError := by
  by_cases hk : k0 = NumVal.obj true
  · subst hk
    unfold hx_convert_inputs
    rw [show convert_numarg (NumVal.obj true) = Except.error PyErr.typeError from rfl]
  · by_cases hh : h0 = NumVal.obj true
    · subst hh
      unfold hx_convert_inputs
      rw [convert_numarg_ok k0 hk,
        show convert_numarg (NumVal.obj true) = Except.error PyErr.typeError from rfl]
    · have ht : temp0 = NumVal.obj true := by tauto
      subst ht
      unfold hx_convert_inputs
      rw [convert_numarg_ok k0 hk, convert_numarg_ok h0 hh,
        show convert_numarg (NumVal.obj true) = Except.error PyErr.typeError from rfl]

lemma hxCoefficient_init_objtrue (k0 h0 temp0 : NumVal) (matl : Option String)
    (lookup : String → ℚ → ℚ)
    (h : k0 = NumVal.obj true ∨ h0 = NumVal.obj true ∨ temp0 = NumVal.obj true) :
    hxCoefficient_init k0 h0 temp0 matl lookup = Except.error PyErr.typeError := by
  unfold hxCoefficient_init
  rw [hx_convert_inputs_objtrue k0 h0 temp0 h]

lemma hxCoefficient_init_k_objfalse (h0 temp0 : NumVal) (matl : Option String)
    (lookup : String → ℚ → ℚ) :
    hxCoefficient_init (NumVal.obj false) h0 temp0 matl lookup
      = Except.error PyErr.typeError := by
  by_cases hh : h0 = NumVal.obj true
  · exact hxCoefficient_init_objtrue _ _ _ _ _ (Or.inr (Or.inl hh))
  by_cases ht : temp0 = NumVal.obj true
  · exact hxCoefficient_init_objtrue _ _ _ _ _ (Or.inr (Or.inr ht))
  unfold hxCoefficient_init
  rw [hx_convert_inputs_ok _ _ _ (by simp) hh ht]
  rfl

lemma hxCoefficient_init_kpos_hpos (kq hq : ℚ) (temp0 : NumVal) (matl : Option String)
    (lookup : String → ℚ → ℚ) (ht : temp0 ≠ NumVal.obj true)
    (hk : ¬ kq ≤ 0) (hh : ¬ hq ≤ 0) :
    hxCoefficient_init (NumVal.num kq) (NumVal.num hq) temp0 matl lookup
      = Except.ok ⟨kq, hq, matl, temp0⟩ := by
  unfold hxCoefficient_init
  rw [hx_convert_inputs_ok _ _ _ (by simp) (by simp) ht]
  simp [pyLeZero, hk, hh]

lemma hxCoefficient_init_kpos_hnonpos (kq hq : ℚ) (temp0 : NumVal)
    (matl : Option String) (lookup : String → ℚ → ℚ)
    (ht : temp0 ≠ NumVal.obj true) (hk : ¬ kq ≤ 0) (hh : hq ≤ 0) :
    hxCoefficient_init (NumVal.num kq) (NumVal.num hq) temp0 matl lookup
      = Except.error PyErr.valueError := by
  unfold hxCoefficient_init
  rw [hx_convert_inputs_ok _ _ _ (by simp) (by simp) ht]
  simp [pyLeZero, hk, hh]

lemma hxCoefficient_init_no_kpath (kq : ℚ) (h0 temp0 : NumVal) (matl : Option String)
    (lookup : String → ℚ → ℚ) (hh : h0 ≠ NumVal.obj true)
    (ht : temp0 ≠ NumVal.obj true) (hk : kq ≤ 0)
    (hcond : ¬ (matlTruthy matl = true ∧ temp0.isTruthy = true)) :
    hxCoefficient_init (NumVal.num kq) h0 temp0 matl lookup
      = Except.error PyErr.valueError := by
  have hb : (matlTruthy matl && temp0.isTruthy) = false := by
    rcases hbc : (matlTruthy matl && temp0.isTruthy) with _ | _
    · rfl
    · exact absurd ((Bool.and_eq_true _ _).mp hbc) hcond
  unfold hxCoefficient_init
  rw [hx_convert_inputs_ok _ _ _ (by simp) hh ht]
  simp [pyLeZero, hk, hb]

lemma hxCoefficient_init_h_nonnumeric (kq : ℚ) (temp0 : NumVal)
    (matl : Option String) (lookup : String → ℚ → ℚ)
    (ht : temp0 ≠ NumVal.obj true)
    (hpath : 0 < kq ∨ (matlTruthy matl = true ∧ temp0.isTruthy = true)) :
    hxCoefficient_init (NumVal.num kq) (NumVal.obj false) temp0 matl lookup
      = Except.error PyErr.typeError := by
  by_cases hk : kq ≤ 0
  · have hpair : matlTruthy matl = true ∧ temp0.isTruthy = true :=
      hpath.resolve_left (not_lt.mpr hk)
    obtain ⟨m, rfl⟩ : ∃ m, matl = some m := by
      cases matl with
      | none => simp [matlTruthy] at hpair
      | some m => exact ⟨m, rfl⟩
    obtain ⟨tq, rfl⟩ : ∃ tq, temp0 = NumVal.num tq := by
      cases temp0 with
      | num tq => exact ⟨tq, rfl⟩
      | obj b =>
        cases b with
        | false => simp [NumVal.isTruthy] at hpair
        | true => exact absurd rfl ht
    unfold hxCoefficient_init
    rw [hx_convert_inputs_ok _ _ _ (by simp) (by simp) ht]
    simp [pyLeZero, hk, hpair.1, hpair.2]
  · unfold hxCoefficient_init
    rw [hx_convert_inputs_ok _ _ _ (by simp) (by simp) ht]
    simp [pyLeZero, hk]

lemma hxCoefficient_init_h_nonpos (kq hq : ℚ) (temp0 : NumVal)
    (matl : Option String) (lookup : String → ℚ → ℚ)
    (ht : temp0 ≠ NumVal.obj true)
    (hpath : 0 < kq ∨ (matlTruthy matl = true ∧ temp0.isTruthy = true))
    (hh : hq ≤ 0) :
    hxCoefficient_init (NumVal.num kq) (NumVal.num hq) temp0 matl lookup
      = Except.error PyErr.valueError := by
  by_cases hk : kq ≤ 0
  · have hpair : matlTruthy matl = true ∧ temp0.isTruthy = true :=
      hpath.resolve_left (not_lt.mpr hk)
    obtain ⟨m, rfl⟩ : ∃ m, matl = some m := by
      cases matl with
      | none => simp [matlTruthy] at hpair
      | some m => exact ⟨m, rfl⟩
    obtain ⟨tq, rfl⟩ : ∃ tq, temp0 = NumVal.num tq := by
      cases temp0 with
      | num tq => exact ⟨tq, rfl⟩
      | obj b =>
        cases b with
        | false => simp [NumVal.isTruthy] at hpair
        | true => exact absurd rfl ht
    unfold hxCoefficient_init
    rw [hx_convert_inputs_ok _ _ _ (by simp) (by simp) ht]
    simp [pyLeZero, hk, hh, hpair.1, hpair.2]
  · exact hxCoefficient_init_kpos_hnonpos kq hq temp0 matl lookup ht hk hh

lemma hxCoefficient_init_lookup_path (kq hq tq : ℚ) (m : String)
    (lookup : String → ℚ → ℚ) (hk : kq ≤ 0) (hm : m ≠ "") (ht : tq ≠ 0)
    (hh : ¬ hq ≤ 0) :
    hxCoefficient_init (NumVal.num kq) (NumVal.num hq) (NumVal.num tq) (some m) lookup
      = Except.ok ⟨lookup m tq, hq, some m, NumVal.num tq⟩ := by
  unfold hxCoefficient_init
  rw [hx_convert_inputs_num]
  simp [pyLeZero, matlTruthy, NumVal.isTruthy, hk, hm, ht, hh]

lemma hxCoefficient_init_lookup_path_hnonpos (kq hq tq : ℚ) (m : String)
    (lookup : String → ℚ → ℚ) (hk : kq ≤ 0) (hm : m ≠ "") (ht : tq ≠ 0)
    (hh : hq ≤ 0) :
    hxCoefficient_init (NumVal.num kq) (NumVal.num hq) (NumVal.num tq) (some m) lookup
      = Except.error PyErr.valueError := by
  unfold hxCoefficient_init
  rw [hx_convert_inputs_num]
  simp [pyLeZero, matlTruthy, NumVal.isTruthy, hk, hm, ht, hh]

/-- C7 (amended): a complete characterization of HxCoefficient.__init__.
Construction fails with TypeError exactly when some truthy input among k, h,
temp is non-numeric (the float() conversions, re-raised at line 193), k is a
falsy non-numeric value (the k <= 0 comparison at line 196 raises), or - after
a k-value was resolved - h is a falsy non-numeric value (the h <= 0 comparison
at line 207 raises).  It fails with ValueError exactly when, those shapes
excluded, k <= 0 and the material+temperature pair is not both truthy
(line 200), or h <= 0 (line 208).  In every other case construction succeeds
(a falsy non-numeric temp is stored as-is when k > 0).  Every constructed
instance has h > 0; the stored k equals the input (hence is positive) when a
positive k was given, but with k <= 0 and a truthy pair the looked-up
conductivity is stored without validation. -/
theorem hxCoefficient_init_characterization :
    (∀ (k0 h0 temp0 : NumVal) (matl : Option String) (lookup : String → ℚ → ℚ),
        k0 = NumVal.obj true ∨ h0 = NumVal.obj true ∨ temp0 = NumVal.obj true →
        hxCoefficient_init k0 h0 temp0 matl lookup = Except.error PyErr.typeError) ∧
    (∀ (h0 temp0 : NumVal) (matl : Option String) (lookup : String → ℚ → ℚ),
        hxCoefficient_init (NumVal.obj false) h0 temp0 matl lookup
          = Except.error PyErr.typeError) ∧
    (∀ (kq : ℚ) (h0 temp0 : NumVal) (matl : Option String) (lookup : String → ℚ → ℚ),
        h0 ≠ NumVal.obj true → temp0 ≠ NumVal.obj true → kq ≤ 0 →
        ¬ (matlTruthy matl = true ∧ temp0.isTruthy = true) →
        hxCoefficient_init (NumVal.num kq) h0 temp0 matl lookup
          = Except.error PyErr.valueError) ∧
    (∀ (kq : ℚ) (temp0 : NumVal) (matl : Option String) (lookup : String → ℚ → ℚ),
        temp0 ≠ NumVal.obj true →
        (0 < kq ∨ (matlTruthy matl = true ∧ temp0.isTruthy = true)) →
        hxCoefficient_init (NumVal.num kq) (NumVal.obj false) temp0 matl lookup
          = Except.error PyErr.typeError) ∧
    (∀ (kq hq : ℚ) (temp0 : NumVal) (matl : Option String) (lookup : String → ℚ → ℚ),
        temp0 ≠ NumVal.obj true →
        (0 < kq ∨ (matlTruthy matl = true ∧ temp0.isTruthy = true)) → hq ≤ 0 →
        hxCoefficient_init (NumVal.num kq) (NumVal.num hq) temp0 matl lookup
          = Except.error PyErr.valueError) ∧
    (∀ (kq hq : ℚ) (temp0 : NumVal) (matl : Option String) (lookup : String → ℚ → ℚ),
        temp0 ≠ NumVal.obj true → 0 < kq → 0 < hq →
        hxCoefficient_init (NumVal.num kq) (NumVal.num hq) temp0 matl lookup
          = Except.ok ⟨kq, hq, matl, temp0⟩) ∧
    (∀ (kq hq tq : ℚ) (m : String) (lookup : String → ℚ → ℚ),
        kq ≤ 0 → m ≠ "" → tq ≠ 0 → 0 < hq →
        hxCoefficient_init (NumVal.num kq) (NumVal.num hq) (NumVal.num tq) (some m) lookup
          = Except.ok ⟨lookup m tq, hq, some m, NumVal.num tq⟩) ∧
    (∀ (k0 h0 temp0 : NumVal) (matl : Option String) (lookup : String → ℚ → ℚ)
        (c : HxCoefficient),
        hxCoefficient_init k0 h0 temp0 matl lookup = Except.ok c → 0 < c.h) ∧
    (∀ (kq : ℚ) (h0 temp0 : NumVal) (matl : Option String) (lookup : String → ℚ → ℚ)
        (c : HxCoefficient), 0 < kq →
        hxCoefficient_init (NumVal.num kq) h0 temp0 matl lookup = Except.ok c →
        c.k = kq) := by
  refine ⟨hxCoefficient_init_objtrue,
    hxCoefficient_init_k_objfalse,
    hxCoefficient_init_no_kpath,
    hxCoefficient_init_h_nonnumeric,
    hxCoefficient_init_h_nonpos,
    fun kq hq temp0 matl lookup ht hk hh =>
      hxCoefficient_init_kpos_hpos kq hq temp0 matl lookup ht
        (not_le.mpr hk) (not_le.mpr hh),
    fun kq hq tq m lookup hk hm ht hh =>
      hxCoefficient_init_lookup_path kq hq tq m lookup hk hm ht (not_le.mpr hh),
    ?_, ?_⟩
  · -- invariant: every successful construction stores a positive h
    intro k0 h0 temp0 matl lookup c hok
    rcases k0 with kq | bk
    · by_cases hh0 : h0 = NumVal.obj true
      · rw [hxCoefficient_init_objtrue _ _ _ _ _ (Or.inr (Or.inl hh0))] at hok
        exact absurd hok (by simp)
      by_cases ht0 : temp0 = NumVal.obj true
      · rw [hxCoefficient_init_objtrue _ _ _ _ _ (Or.inr (Or.inr ht0))] at hok
        exact absurd hok (by simp)
      by_cases hpath : 0 < kq ∨ (matlTruthy matl = true ∧ temp0.isTruthy = true)
      · rcases h0 with hq | bh
        · by_cases hhq : hq ≤ 0
          · rw [hxCoefficient_init_h_nonpos kq hq temp0 matl lookup ht0 hpath hhq] at hok
            exact absurd hok (by simp)
          · by_cases hk : kq ≤ 0
            · have hpair : matlTruthy matl = true ∧ temp0.isTruthy = true :=
                hpath.resolve_left (not_lt.mpr hk)
              obtain ⟨m, rfl⟩ : ∃ m, matl = some m := by
                cases matl with
                | none => simp [matlTruthy] at hpair
                | some m => exact ⟨m, rfl⟩
              obtain ⟨tq, rfl⟩ : ∃ tq, temp0 = NumVal.num tq := by
                cases temp0 with
                | num tq => exact ⟨tq, rfl⟩
                | obj b =>
                  cases b with
                  | false => simp [NumVal.isTruthy] at hpair
                  | true => exact absurd rfl ht0
              have hm : m ≠ "" := by simpa [matlTruthy] using hpair.1
              have htq : tq ≠ 0 := by simpa [NumVal.isTruthy] using hpair.2
              rw [hxCoefficient_init_lookup_path kq hq tq m lookup hk hm htq hhq] at hok
              simp only [Except.ok.injEq] at hok
              rw [← hok]
              exact not_le.mp hhq
            · rw [hxCoefficient_init_kpos_hpos kq hq temp0 matl lookup ht0 hk hhq] at hok
              simp only [Except.ok.injEq] at hok
              rw [← hok]
              exact not_le.mp hhq
        · cases bh with
          | true => exact absurd rfl hh0
          | false =>
            rw [hxCoefficient_init_h_nonnumeric kq temp0 matl lookup ht0 hpath] at hok
            exact absurd hok (by simp)
      · have hk : kq ≤ 0 := by
          by_contra hkpos
          exact hpath (Or.inl (lt_of_not_le hkpos))
        have hcond : ¬ (matlTruthy matl = true ∧ temp0.isTruthy = true) :=
          fun hp => hpath (Or.inr hp)
        rw [hxCoefficient_init_no_kpath kq h0 temp0 matl lookup hh0 ht0 hk hcond] at hok
        exact absurd hok (by simp)
    · cases bk with
      | true =>
        rw [hxCoefficient_init_objtrue _ _ _ _ _ (Or.inl rfl)] at hok
        exact absurd hok (by simp)
      | false =>
        rw [hxCoefficient_init_k_objfalse h0 temp0 matl lookup] at hok
        exact absurd hok (by simp)
  · -- invariant: a positive explicit k is stored unchanged
    intro kq h0 temp0 matl lookup c hkpos hok
    by_cases hh0 : h0 = NumVal.obj true
    · rw [hxCoefficient_init_objtrue _ _ _ _ _ (Or.inr (Or.inl hh0))] at hok
      exact absurd hok (by simp)
    by_cases ht0 : temp0 = NumVal.obj true
    · rw [hxCoefficient_init_objtrue _ _ _ _ _ (Or.inr (Or.inr ht0))] at hok
      exact absurd hok (by simp)
    rcases h0 with hq | bh
    · by_cases hhq : hq ≤ 0
      · rw [hxCoefficient_init_h_nonpos kq hq temp0 matl lookup ht0
            (Or.inl hkpos) hhq] at hok
        exact absurd hok (by simp)
      · rw [hxCoefficient_init_kpos_hpos kq hq temp0 matl lookup ht0
            (not_le.mpr hkpos) hhq] at hok
        simp only [Except.ok.injEq] at hok
        rw [← hok]
    · cases bh with
      | true => exact absurd rfl hh0
      | false =>
        rw [hxCoefficient_init_h_nonnumeric kq temp0 matl lookup ht0
            (Or.inl hkpos)] at hok
        exact absurd hok (by simp)

/-- C7 witness: concrete instantiations of every clause of the
characterization theorem, covering each failure shape (truthy non-numeric,
falsy non-numeric k and h, empty material string, zero temperature, absent
pair, nonpositive h) and both success paths. -/
theorem hxCoefficient_init_characterization_witness :
    hxCoefficient_init (NumVal.obj true) (NumVal.num 10) (NumVal.num 20) none
        (fun _ _ => 7) = Except.error PyErr.typeError ∧
    hxCoefficient_init (NumVal.obj false) (NumVal.num 10) (NumVal.num 20) none
        (fun _ _ => 7) = Except.error PyErr.typeError ∧
    hxCoefficient_init (NumVal.num 0) (NumVal.num 10) (NumVal.num 0) (some "x")
        (fun _ _ => 7) = Except.error PyErr.valueError ∧
    hxCoefficient_init (NumVal.num 0) (NumVal.num 10) (NumVal.num 20) (some "")
        (fun _ _ => 7) = Except.error PyErr.valueError ∧
    hxCoefficient_init (NumVal.num 3) (NumVal.obj false) (NumVal.num 20) none
        (fun _ _ => 7) = Except.error PyErr.typeError ∧
    hxCoefficient_init (NumVal.num 3) (NumVal.num 0) (NumVal.num 20) none
        (fun _ _ => 7) = Except.error PyErr.valueError ∧
    hxCoefficient_init (NumVal.num 3) (NumVal.num 10) (NumVal.num 20) none
        (fun _ _ => 7) = Except.ok ⟨3, 10, none, NumVal.num 20⟩ ∧
    hxCoefficient_init (NumVal.num 0) (NumVal.num 10) (NumVal.num 20) (some "x")
        (fun _ _ => 7) = Except.ok ⟨7, 10, some "x", NumVal.num 20⟩ ∧
    0 < (⟨7, 10, some "x", NumVal.num 20⟩ : HxCoefficient).h ∧
    (⟨3, 10, none, NumVal.num 20⟩ : HxCoefficient).k = 3 :=
  ⟨hxCoefficient_init_characterization.1 (NumVal.obj true) (NumVal.num 10)
      (NumVal.num 20) none (fun _ _ => 7) (Or.inl rfl),
   hxCoefficient_init_characterization.2.1 (NumVal.num 10) (NumVal.num 20) none
      (fun _ _ => 7),
   hxCoefficient_init_characterization.2.2.1 0 (NumVal.num 10) (NumVal.num 0)
      (some "x") (fun _ _ => 7) (by simp) (by simp) (by norm_num)
      (by simp [NumVal.isTruthy]),
   hxCoefficient_init_characterization.2.2.1 0 (NumVal.num 10) (NumVal.num 20)
      (some "") (fun _ _ => 7) (by simp) (by simp) (by norm_num)
      (by simp [matlTruthy]),
   hxCoefficient_init_characterization.2.2.2.1 3 (NumVal.num 20) none
      (fun _ _ => 7) (by simp) (Or.inl (by norm_num)),
   hxCoefficient_init_characterization.2.2.2.2.1 3 0 (NumVal.num 20) none
      (fun _ _ => 7) (by simp) (Or.inl (by norm_num)) (by norm_num),
   hxCoefficient_init_characterization.2.2.2.2.2.1 3 10 (NumVal.num 20) none
      (fun _ _ => 7) (by simp) (by norm_num) (by norm_num),
   hxCoefficient_init_characterization.2.2.2.2.2.2.1 0 10 20 "x" (fun _ _ => 7)
      (by norm_num) (by decide) (by norm_num) (by norm_num),
   hxCoefficient_init_characterization.2.2.2.2.2.2.2.1 (NumVal.num 0)
      (NumVal.num 10) (NumVal.num 20) (some "x") (fun _ _ => 7)
      ⟨7, 10, some "x", NumVal.num 20⟩
      (hxCoefficient_init_characterization.2.2.2.2.2.2.1 0 10 20 "x"
        (fun _ _ => 7) (by norm_num) (by decide) (by norm_num) (by norm_num)),
   hxCoefficient_init_characterization.2.2.2.2.2.2.2.2 3 (NumVal.num 10)
      (NumVal.num 20) none (fun _ _ => 7) ⟨3, 10, none, NumVal.num 20⟩
      (by norm_num)
      (hxCoefficient_init_characterization.2.2.2.2.2.1 3 10 (NumVal.num 20) none
        (fun _ _ => 7) (by simp) (by norm_num) (by norm_num))⟩

/-!
## Real-analysis helper lemmas for the Scenario B and C computations
-/

lemma tanh_eq_exp_two_mul (x : ℝ) :
    Real.tanh x = (Real.exp (2*x) - 1) / (Real.exp (2*x) + 1) := by
  rw [Real.tanh_eq_sinh_div_cosh, Real.sinh_eq, Real.cosh_eq]
  have h1 : Real.exp (2*x) = Real.exp x * Real.exp x := by rw [two_mul, Real.exp_add]
  have h2 : Real.exp (-x) = (Real.exp x)⁻¹ := Real.exp_neg x
  have h3 : Real.exp x ≠ 0 := (Real.exp_pos x).ne'
  rw [h1, h2]
  field_simp

lemma exp_9803_lower : (266505/100000 : ℝ) ≤ Real.exp (9803/10000) := by
  have h := Real.sum_le_exp_of_nonneg (x := (9803/10000:ℝ)) (by norm_num) 7
  refine le_trans ?_ h
  simp [Finset.sum_range_succ, Nat.factorial]
  norm_num

lemma exp_98032_upper : Real.exp (6127/6250) ≤ (266532/100000 : ℝ) := by
  have h := Real.exp_bound' (x := (6127/6250:ℝ)) (by norm_num) (by norm_num)
    (n := 7) (by norm_num)
  refine le_trans h ?_
  simp [Finset.sum_range_succ, Nat.factorial]
  norm_num

lemma param_m_scenario_sqrt250 :
    StraightHeatSink_calc_fin_param_m 50 200 (1/500) = Real.sqrt 250 := by
  unfold StraightHeatSink_calc_fin_param_m
  norm_num

lemma suggest_param_m_scenario_sqrt250 :
    suggest_param_m 50 200 (1/500) = Real.sqrt 250 := by
  unfold suggest_param_m
  norm_num

lemma sqrt250_gt_15 : (15:ℝ) < Real.sqrt 250 := by
  have h : Real.sqrt 225 < Real.sqrt 250 := Real.sqrt_lt_sqrt (by norm_num) (by norm_num)
  have h225 : Real.sqrt 225 = 15 := by
    rw [show (225:ℝ) = 15^2 by norm_num, Real.sqrt_sq (by norm_num : (0:ℝ) ≤ 15)]
  linarith [h225 ▸ h]

lemma tanh_250_gt : (99/100 : ℝ) < Real.tanh 250 := by
  rw [Real.tanh_eq_sinh_div_cosh, Real.sinh_eq, Real.cosh_eq]
  have hE : 0 < Real.exp 250 := Real.exp_pos _
  have hu : 0 < Real.exp (-250) := Real.exp_pos _
  have hEu : Real.exp 250 * Real.exp (-250) = 1 := by
    rw [← Real.exp_add]; norm_num
  have hE2 : (501:ℝ) ≤ Real.exp 250 * Real.exp 250 := by
    have h1 : (500:ℝ) + 1 ≤ Real.exp 500 := Real.add_one_le_exp 500
    have h2 : Real.exp 500 = Real.exp 250 * Real.exp 250 := by
      rw [← Real.exp_add]; norm_num
    linarith [h2 ▸ h1]
  have hden : (0:ℝ) < (Real.exp 250 + Real.exp (-250)) / 2 := by positivity
  rw [lt_div_iff₀ hden]
  nlinarith [hEu, hE2, hE, hu]

/-- Scenario B fin parameter m, from k=200, h=50, fin_thk=0.002. -/
noncomputable def scenarioB_m : ℝ := StraightHeatSink_calc_fin_param_m 50 200 (1/500)

/-- Scenario B characteristic length, from fin_len=0.03, fin_thk=0.002. -/
noncomputable def scenarioB_lc : ℝ :=
  StrRectHeatSink_calc_fin_characteristic_length (3/100) (1/500)

/-- Scenario B rectangular fin efficiency as the code composes it in
StrRectHeatSink._calc_derived_params. -/
noncomputable def scenarioB_eff : ℝ :=
  StrRectHeatSink_calc_fin_efficiency scenarioB_m scenarioB_lc

lemma scenarioB_lc_eq : scenarioB_lc = 31/1000 := by
  unfold scenarioB_lc StrRectHeatSink_calc_fin_characteristic_length
  norm_num

lemma scenarioB_eff_bounds :
    (9259/10000 : ℝ) < scenarioB_eff ∧ scenarioB_eff < (9279/10000 : ℝ) := by
  have heff : scenarioB_eff
      = Real.tanh (Real.sqrt 250 * (31/1000)) / (Real.sqrt 250 * (31/1000)) := by
    unfold scenarioB_eff StrRectHeatSink_calc_fin_efficiency
    rw [show scenarioB_m = Real.sqrt 250 from param_m_scenario_sqrt250, scenarioB_lc_eq]
  have ht0 : (0:ℝ) < Real.sqrt 250 * (31/1000) := by positivity
  have htsq : (Real.sqrt 250 * (31/1000))^2 = 961/4000 := by
    rw [mul_pow, Real.sq_sqrt (by norm_num : (0:ℝ) ≤ 250)]
    norm_num
  have hta : (9803/20000:ℝ) < Real.sqrt 250 * (31/1000) := by
    nlinarith [ht0.le, htsq, sq_nonneg (Real.sqrt 250 * (31/1000) - 9803/20000)]
  have htb : Real.sqrt 250 * (31/1000) < (6127/12500:ℝ) := by
    nlinarith [ht0.le, htsq, sq_nonneg (Real.sqrt 250 * (31/1000) + 6127/12500)]
  have hElow : (266505/100000:ℝ) < Real.exp (2 * (Real.sqrt 250 * (31/1000))) := by
    refine lt_of_le_of_lt exp_9803_lower (Real.exp_lt_exp.mpr ?_)
    linarith
  have hEhigh : Real.exp (2 * (Real.sqrt 250 * (31/1000))) < (266532/100000:ℝ) := by
    refine lt_of_lt_of_le (Real.exp_lt_exp.mpr ?_) exp_98032_upper
    linarith
  have hEpos : (0:ℝ) < Real.exp (2 * (Real.sqrt 250 * (31/1000))) + 1 := by
    positivity
  have htanh := tanh_eq_exp_two_mul (Real.sqrt 250 * (31/1000))
  have htanh_low : (45430/100000:ℝ) < Real.tanh (Real.sqrt 250 * (31/1000)) := by
    rw [htanh, lt_div_iff₀ hEpos]
    linarith
  have htanh_high : Real.tanh (Real.sqrt 250 * (31/1000)) < (45435/100000:ℝ) := by
    rw [htanh, div_lt_iff₀ hEpos]
    linarith
  constructor
  · rw [heff, lt_div_iff₀ ht0]
    linarith
  · rw [heff, div_lt_iff₀ ht0]
    linarith

/-!
## Claim theorems over the real-valued formulas
-/

/-- C3: the spec table and the source comment at heat_sink.py line 954 both give
the parabolic fin efficiency as 2/(1 + sqrt((2·m·L)² + 1)), with the 2·m·L term
squared inside the square root, but line 955 computes 2/(1 + sqrt(2·m·L + 1))
without the square; at m = 1 (from h=1, k=2, fin_thk=1) and fin_len = 3/2 the
code yields 2/3 while the documented formula yields 2/(1 + sqrt 10) < 1/2. -/
theorem strPara_fin_efficiency_not_squared :
    StraightHeatSink_calc_fin_param_m 1 2 1 = 1 ∧
    StrParaHeatSink_calc_fin_efficiency 1 (3/2) = 2/3 ∧
    strPara_fin_efficiency_spec 1 (3/2) = 2 / (1 + Real.sqrt 10) ∧
    StrParaHeatSink_calc_fin_efficiency 1 (3/2) ≠ strPara_fin_efficiency_spec 1 (3/2) := by
  have hm : StraightHeatSink_calc_fin_param_m 1 2 1 = 1 := by
    unfold StraightHeatSink_calc_fin_param_m
    rw [show (2 * (1:ℝ)) / (2 * 1) = 1 by norm_num, Real.sqrt_one]
  have hcode : StrParaHeatSink_calc_fin_efficiency 1 (3/2) = 2/3 := by
    unfold StrParaHeatSink_calc_fin_efficiency
    rw [show (2 * (1:ℝ) * (3/2) + 1) = 2^2 by norm_num,
      Real.sqrt_sq (by norm_num : (0:ℝ) ≤ 2)]
    norm_num
  have hspec : strPara_fin_efficiency_spec 1 (3/2) = 2 / (1 + Real.sqrt 10) := by
    unfold strPara_fin_efficiency_spec
    norm_num
  refine ⟨hm, hcode, hspec, ?_⟩
  rw [hcode, hspec]
  have h10 : (3:ℝ) ≤ Real.sqrt 10 := by
    have h9 : Real.sqrt 9 = 3 := by
      rw [show (9:ℝ) = 3^2 by norm_num, Real.sqrt_sq (by norm_num : (0:ℝ) ≤ 3)]
    linarith [h9 ▸ Real.sqrt_le_sqrt (by norm_num : (9:ℝ) ≤ 10)]
  have hpos : (0:ℝ) < 1 + Real.sqrt 10 := by linarith
  intro heq
  rw [div_eq_div_iff (by norm_num : (3:ℝ) ≠ 0) hpos.ne'] at heq
  linarith

/-- C4: the spec says the sweep entry at target mL = 1.0 (k=200, h=50,
fin_thk=0.002, so m = sqrt(250) = 15.811) has fin_length ≈ 0.0632 and
length_ratio = tanh(m·fin_length) ≈ 0.7616, consistent with the code docstring
table (mL=1.0 ↦ Q ratio 0.762).  The code computes fin_len = param_m / coeff
instead of coeff / param_m, so the entry is fin_length = sqrt(250) > 15 and
length_ratio = tanh(250) > 0.99. -/
theorem suggest_fin_length_scenarioC_diverges :
    suggest_param_m 50 200 (1/500) = Real.sqrt 250 ∧
    (suggest_entry (suggest_param_m 50 200 (1/500)) 1).1 = Real.sqrt 250 ∧
    (15:ℝ) < (suggest_entry (suggest_param_m 50 200 (1/500)) 1).1 ∧
    (suggest_entry (suggest_param_m 50 200 (1/500)) 1).2.1 = Real.tanh 250 ∧
    (99/100:ℝ) < (suggest_entry (suggest_param_m 50 200 (1/500)) 1).2.1 := by
  have hfst : (suggest_entry (suggest_param_m 50 200 (1/500)) 1).1 = Real.sqrt 250 := by
    unfold suggest_entry
    rw [suggest_param_m_scenario_sqrt250]
    norm_num
  have hratio : (suggest_entry (suggest_param_m 50 200 (1/500)) 1).2.1
      = Real.tanh 250 := by
    unfold suggest_entry
    rw [suggest_param_m_scenario_sqrt250]
    rw [show Real.sqrt 250 * (Real.sqrt 250 / 1) = Real.sqrt 250 * Real.sqrt 250 by
      norm_num]
    rw [Real.mul_self_sqrt (by norm_num : (0:ℝ) ≤ 250)]
  refine ⟨suggest_param_m_scenario_sqrt250, hfst, ?_, hratio, ?_⟩
  · rw [hfst]
    exact sqrt250_gt_15
  · rw [hratio]
    exact tanh_250_gt

/-- C8 (amended): the rectangular characteristic length is fin_len + fin_thk/2
and the rectangular fin efficiency is tanh(m·Lc)/(m·Lc), exactly as the spec
table states; for Scenario B (n_fins=2, fin_len=0.03, fin_wid=0.05,
fin_thk=0.002, base_h=0.02, k=200, h=50) the efficiency is ≈ 0.9269 (within
0.001), not ≈ 0.9210 as the scenario's arithmetic concluded. -/
theorem strRect_efficiency_formula_scenarioB :
    (∀ fin_len fin_thk : ℝ,
      StrRectHeatSink_calc_fin_characteristic_length fin_len fin_thk
        = fin_len + fin_thk / 2) ∧
    (∀ m lc : ℝ,
      StrRectHeatSink_calc_fin_efficiency m lc = Real.tanh (m * lc) / (m * lc)) ∧
    scenarioB_m * scenarioB_lc = Real.sqrt 250 * (31/1000) ∧
    |scenarioB_eff - 9269/10000| < 1/1000 := by
  refine ⟨fun _ _ => rfl, fun _ _ => rfl, ?_, ?_⟩
  · rw [show scenarioB_m = Real.sqrt 250 from param_m_scenario_sqrt250, scenarioB_lc_eq]
  · rw [abs_lt]
    constructor
    · linarith [scenarioB_eff_bounds.1]
    · linarith [scenarioB_eff_bounds.2]

/-- C8 counterexample: the Scenario B efficiency is not within 0.001 of the
0.9210 value printed in the spec (it exceeds 0.9259). -/
theorem scenarioB_efficiency_not_0921 :
    ¬ |scenarioB_eff - 9210/10000| < 1/1000 := by
  intro habs
  rw [abs_lt] at habs
  linarith [scenarioB_eff_bounds.1, habs.2]

/-- C7 counterexample: with the material lookup resolving to a nonpositive
conductivity (as linear extrapolation of the tabular data permits), construction
succeeds and the stored k is not positive, refuting the claimed invariant that
every constructed coefficient instance has k > 0. -/
theorem hxCoefficient_init_stores_nonpositive_k :
    hxCoefficient_init (NumVal.num 0) (NumVal.num 10) (NumVal.num 20)
        (some "aluminum") (fun _ _ => -1)
      = Except.ok ⟨-1, 10, some "aluminum", NumVal.num 20⟩ ∧
    ¬ (0 < (-1 : ℚ)) :=
  ⟨hxCoefficient_init_lookup_path 0 10 20 "aluminum" (fun _ _ => -1)
      (by norm_num) (by decide) (by norm_num) (by norm_num),
   by norm_num⟩

end HxcDesigner
